import Mathlib

/-!
Verification of the translation-pair similarity search service.

The development shallowly embeds the core retrieval pipeline of the
repository (files `search_similar_tool.py` and `server.py`): language
detection, query embedding, ranked nearest-neighbour lookup against the
`trans_agent` store, parameter clamping, result assembly, the health check
and the direct id lookup.  External collaborators (the embedding HTTP
endpoint and the SQL session) are modelled as an environment `Env` whose
components either succeed with a value or fail with an error string, which
is how the Python code observes them (a value or a raised exception).
The store's ranked vector query (`ORDER BY english_embedding <=> q LIMIT k`,
pgvector cosine distance, ascending) is modelled as a stable sort of the
stored rows by cosine distance to the query followed by `take k`.
-/

namespace SearchSimilar

/-- A stored row of the `trans_agent` table (source: `class TransAgent`).
Embedding vectors are modelled as lists of rationals; `created_at` is an
optional timestamp (modelled as a number, stringified on output). -/
structure TransAgentRow where
  id : Int
  gl_number : Option String
  row_number : Option String
  version : Option String
  effective_date : Option String
  english_text : String
  chinese_text : String
  english_embedding : List ℚ
  chinese_embedding : List ℚ
  created_at : Option Nat
  deriving Repr, DecidableEq

/-- Dot product of two vectors (componentwise product, summed). -/
def dot (xs ys : List ℚ) : ℚ := (List.zipWith (fun a b => a * b) xs ys).sum

/-- Comparison of cosine distances given the relevant dot products:
`simCmp sa sb na nb = true` iff `1 - sa/√(na·nq) ≤ 1 - sb/√(nb·nq)`,
i.e. the vector with query dot product `sa` and squared norm `na` is at
most as far (in cosine distance) from the query as the one with `sb`, `nb`.
Square roots are avoided by sign analysis and squaring, so the comparison
is decidable over ℚ.  A zero-norm vector has undefined (NaN) cosine
distance; pgvector/PostgreSQL order NaN after every real value, so a
zero-norm vector is treated as maximally distant. -/
def simCmp (sa sb na nb : ℚ) : Bool :=
  if nb = 0 then true
  else if na = 0 then false
  else if 0 ≤ sa then
    (if sb ≤ 0 then true else decide (sb ^ 2 * na ≤ sa ^ 2 * nb))
  else
    (if 0 ≤ sb then false else decide (sa ^ 2 * nb ≤ sb ^ 2 * na))

/-- `cosKeyLE q a b = true` iff the cosine distance from `a` to `q` is at
most the cosine distance from `b` to `q`. -/
def cosKeyLE (q a b : List ℚ) : Bool :=
  simCmp (dot a q) (dot b q) (dot a a) (dot b b)

/-- Row ordering used by the store's ranked query: ascending cosine
distance of `english_embedding` to the query vector. -/
def embLE (q : List ℚ) (r1 r2 : TransAgentRow) : Prop :=
  cosKeyLE q r1.english_embedding r2.english_embedding = true

instance instDecEmbLE (q : List ℚ) : DecidableRel (embLE q) :=
  fun r1 r2 => instDecidableEqBool (cosKeyLE q r1.english_embedding r2.english_embedding) true

/-- The store's ranked vector query: the `k` stored rows whose
`english_embedding` is closest to `q` under cosine distance, ascending
(source: `db.query(TransAgent).order_by(TransAgent.english_embedding.op(..)(query_embedding)).limit(top_k).all()`). -/
def rankByDistance (rows : List TransAgentRow) (q : List ℚ) (k : Nat) : List TransAgentRow :=
  (List.insertionSort (embLE q) rows).take k

/-- Cosine distance between a stored vector `v` and the query `q`:
`1 - (v·q) / (‖v‖‖q‖)`.  Used only in specifications. -/
noncomputable def cosineDistance (q v : List ℚ) : ℝ :=
  1 - (dot v q : ℝ) / (Real.sqrt ((dot v v : ℚ) : ℝ) * Real.sqrt ((dot q q : ℚ) : ℝ))

/-- Predicate for the CJK Unified Ideographs test of `detect_language`
(source: `'一' <= c <= '鿿'`). -/
def isCJK (c : Char) : Bool := decide ('一' ≤ c) && decide (c ≤ '鿿')

/-- Predicate for the ASCII-alphabetic test of `detect_language`
(source: `c.isascii() and c.isalpha()`; `isascii` holds exactly for code
points at most 127, and on that range `isalpha` holds exactly for the
Latin letters). -/
def isAsciiAlpha (c : Char) : Bool := decide (c.toNat ≤ 127) && c.isAlpha

/-- Language detection (source: `detect_language`): count CJK code points
and ASCII alphabetic characters; Chinese wins only on a strict majority. -/
def detect_language (text : String) : String :=
  let zh_chars := (text.data.filter isCJK).length
  let en_chars := (text.data.filter isAsciiAlpha).length
  if zh_chars > en_chars then "zh" else "en"

/-- Clamping of `top_k` (source: `if not 1 <= top_k <= 20: top_k = min(max(top_k, 1), 20)`).
The spec calls this `clamp_top_k`. -/
def clamp_top_k (top_k : Int) : Int :=
  if 1 ≤ top_k ∧ top_k ≤ 20 then top_k else min (max top_k 1) 20

/-- A translation pair as assembled into the response
(the per-row dictionary built inside `search_similar_pairs`).
`created_at_meta` is the single `created_at` entry of the `metadata`
mapping. -/
structure TranslationPair where
  id : Int
  gl_number : Option String
  row_number : Option String
  version : Option String
  effective_date : Option String
  english_text : String
  chinese_text : String
  context : String
  created_at_meta : Option String
  deriving Repr, DecidableEq

/-- Assembly of one stored row into a response pair (source: the `pair`
dictionary in `search_similar_pairs`): `context` is set to
`english_text`, and `metadata.created_at` is the stringified timestamp
when present and `None` otherwise
(source: `str(row.created_at) if row.created_at else None`). -/
def rowToPair (row : TransAgentRow) : TranslationPair :=
  { id := row.id
    gl_number := row.gl_number
    row_number := row.row_number
    version := row.version
    effective_date := row.effective_date
    english_text := row.english_text
    chinese_text := row.chinese_text
    context := row.english_text
    created_at_meta :=
      match row.created_at with
      | some t => some (toString t)
      | none => none }

/-- The external collaborators as the pipeline observes them: the
embedding service (`embeddings.embed_query`), which returns a vector or
raises, and the store session, which yields the stored rows or raises on
connection/query failure. -/
structure Env where
  embed : String → Except String (List ℚ)
  store : Except String (List TransAgentRow)

/-- The response dictionary of `search_similar_pairs`.  The Python success
dictionary has no `error` key; the error dictionary has one.  The optional
`error` field records exactly that key. -/
structure SearchDict where
  error : Option String
  pairs : List TranslationPair
  total_found : Nat
  query_language : String
  target_language : String
  deriving Repr, DecidableEq

/-- The error-variant response of `search_similar_pairs` (source: the
`except` branch). -/
def errorResponse (msg target_language : String) : SearchDict :=
  { error := some ("Error searching for similar pairs: " ++ msg)
    pairs := []
    total_found := 0
    query_language := "unknown"
    target_language := target_language }

/-- The search orchestrator (source: `search_similar_pairs` in both
`search_similar_tool.py` and `server.py`; the two differ only in that the
latter moves the ranked query into `make_database_request`): clamp
`top_k`, detect the language, embed the query, run the ranked store query,
assemble the pairs; any failure of the embedding call or the store access
produces the error variant. -/
def search_similar_pairs (env : Env) (user_input target_language : String) (top_k : Int) :
    SearchDict :=
  let k := clamp_top_k top_k
  let detected_lang := detect_language user_input
  match env.embed user_input with
  | .error e => errorResponse e target_language
  | .ok query_embedding =>
    match env.store with
    | .error e => errorResponse e target_language
    | .ok rows =>
      let retrieved := rankByDistance rows query_embedding k.toNat
      let pairs := retrieved.map rowToPair
      { error := none
        pairs := pairs
        total_found := pairs.length
        query_language := detected_lang
        target_language := target_language }

/-- The health-check response dictionary: `status` and `service` always;
`database` only on the healthy path of `server.py`; `error` only on its
unhealthy path. -/
structure HealthDict where
  status : String
  service : String
  database : Option String
  error : Option String
  deriving Repr, DecidableEq

/-- Health check of `search_similar_tool.py` (source: `health_check`):
returns a fixed healthy dictionary without touching the store. -/
def health_check_tool (_env : Env) : HealthDict :=
  { status := "healthy", service := "search_similar_tool", database := none, error := none }

/-- Health check of `server.py` (source: `health_check`): performs a
trivial store round-trip (`SELECT 1`) and reports `healthy`/`connected`
when it succeeds and `unhealthy` with the error otherwise. -/
def health_check (env : Env) : HealthDict :=
  match env.store with
  | .ok _ =>
    { status := "healthy", service := "search_similar_tool", database := some "connected",
      error := none }
  | .error e =>
    { status := "unhealthy", service := "search_similar_tool", database := none,
      error := some e }

/-- The response dictionary of `get_translation_pair` (`server.py`): either
an `error` entry alone, or the record fields without an `error` entry.
`created_at` is always `None` there because the `server.py` ORM model
declares no `created_at` column, so `hasattr(row, 'created_at')` is false. -/
structure GetPairDict where
  error : Option String
  id : Option Int
  gl_number : Option String
  row_number : Option String
  version : Option String
  effective_date : Option String
  english_text : Option String
  chinese_text : Option String
  created_at : Option String
  deriving Repr, DecidableEq

/-- The not-found message of `get_translation_pair`. -/
def not_found_msg (pair_id : Int) : String :=
  "Translation pair with ID " ++ toString pair_id ++ " not found"

/-- The generic failure message of `get_translation_pair`. -/
def generic_error_msg (e : String) : String :=
  "Error retrieving translation pair: " ++ e

/-- The success dictionary of `get_translation_pair` for a found row. -/
def foundPairDict (r : TransAgentRow) : GetPairDict :=
  { error := none
    id := some r.id
    gl_number := r.gl_number
    row_number := r.row_number
    version := r.version
    effective_date := r.effective_date
    english_text := some r.english_text
    chinese_text := some r.chinese_text
    created_at := none }

/-- Direct lookup by id (source: `get_translation_pair` in `server.py`):
`db.query(TransAgent).filter(TransAgent.id == pair_id).first()` returns the
first stored row with the requested id, a not-found error dictionary when
none matches, and a generic error dictionary when the store access fails.
No embedding call and no language detection take place. -/
def get_translation_pair (env : Env) (pair_id : Int) : GetPairDict :=
  match env.store with
  | .error e =>
    { error := some (generic_error_msg e)
      id := none, gl_number := none, row_number := none, version := none,
      effective_date := none, english_text := none, chinese_text := none, created_at := none }
  | .ok rows =>
    match rows.find? (fun r => decide (r.id = pair_id)) with
    | none =>
      { error := some (not_found_msg pair_id)
        id := none, gl_number := none, row_number := none, version := none,
        effective_date := none, english_text := none, chinese_text := none, created_at := none }
    | some r => foundPairDict r

/-! ### Helper lemmas about the distance comparison -/

lemma dot_self_nonneg (v : List ℚ) : 0 ≤ dot v v := by
  induction v with
  | nil => simp [dot]
  | cons x xs ih =>
    have h : dot (x :: xs) (x :: xs) = x * x + dot xs xs := by simp [dot]
    rw [h]
    nlinarith [mul_self_nonneg x]

lemma simCmp_total (sa sb na nb : ℚ) :
    simCmp sa sb na nb = true ∨ simCmp sb sa nb na = true := by
  unfold simCmp
  split_ifs <;> simp_all <;> first
    | exact le_total _ _
    | nlinarith

lemma simCmp_trans (sa sb sc na nb nc : ℚ) (hna : 0 ≤ na) (hnb : 0 ≤ nb) (hnc : 0 ≤ nc)
    (h1 : simCmp sa sb na nb = true) (h2 : simCmp sb sc nb nc = true) :
    simCmp sa sc na nc = true := by
  by_cases hc : nc = 0
  · unfold simCmp; rw [if_pos hc]
  by_cases hb : nb = 0
  · exfalso; unfold simCmp at h2; rw [if_neg hc, if_pos hb] at h2; exact Bool.false_ne_true h2
  by_cases ha : na = 0
  · exfalso; unfold simCmp at h1; rw [if_neg hb, if_pos ha] at h1; exact Bool.false_ne_true h1
  have hna' : 0 < na := lt_of_le_of_ne hna (Ne.symm ha)
  have hnb' : 0 < nb := lt_of_le_of_ne hnb (Ne.symm hb)
  have hnc' : 0 < nc := lt_of_le_of_ne hnc (Ne.symm hc)
  unfold simCmp at h1 h2 ⊢
  rw [if_neg hb, if_neg ha] at h1
  rw [if_neg hc, if_neg hb] at h2
  rw [if_neg hc, if_neg ha]
  by_cases hsa : 0 ≤ sa
  · rw [if_pos hsa] at h1 ⊢
    by_cases hsc : sc ≤ 0
    · rw [if_pos hsc]
    rw [if_neg hsc]
    push_neg at hsc
    simp only [decide_eq_true_eq]
    by_cases hsb : sb ≤ 0
    · -- here h1 gives no information; derive a contradiction from h2
      exfalso
      by_cases hsb0 : 0 ≤ sb
      · have hb0 : sb = 0 := le_antisymm hsb hsb0
        rw [if_pos hsb0, if_neg (not_le.mpr hsc)] at h2
        simp only [decide_eq_true_eq, hb0] at h2
        nlinarith [pow_pos hsc 2]
      · rw [if_neg hsb0, if_pos (le_of_lt hsc)] at h2
        exact Bool.false_ne_true h2
    · push_neg at hsb
      rw [if_neg (not_le.mpr hsb)] at h1
      rw [if_pos (le_of_lt hsb), if_neg (not_le.mpr hsc)] at h2
      simp only [decide_eq_true_eq] at h1 h2
      have key : (sb ^ 2 * na) * (sc ^ 2 * nb) ≤ (sa ^ 2 * nb) * (sb ^ 2 * nc) :=
        mul_le_mul h1 h2 (by positivity) (by positivity)
      have e1 : (sb ^ 2 * nb) * (sc ^ 2 * na) = (sb ^ 2 * na) * (sc ^ 2 * nb) := by ring
      have e2 : (sb ^ 2 * nb) * (sa ^ 2 * nc) = (sa ^ 2 * nb) * (sb ^ 2 * nc) := by ring
      have key2 : (sb ^ 2 * nb) * (sc ^ 2 * na) ≤ (sb ^ 2 * nb) * (sa ^ 2 * nc) := by
        rw [e1, e2]; exact key
      exact le_of_mul_le_mul_left key2 (mul_pos (pow_pos hsb 2) hnb')
  · rw [if_neg hsa] at h1 ⊢
    push_neg at hsa
    by_cases hsb : 0 ≤ sb
    · exfalso; rw [if_pos hsb] at h1; exact Bool.false_ne_true h1
    · push_neg at hsb
      rw [if_neg (not_le.mpr hsb)] at h1
      rw [if_neg (not_le.mpr hsb)] at h2
      simp only [decide_eq_true_eq] at h1
      by_cases hsc : 0 ≤ sc
      · exfalso; rw [if_pos hsc] at h2; exact Bool.false_ne_true h2
      · push_neg at hsc
        rw [if_neg (not_le.mpr hsc)] at h2
        rw [if_neg (not_le.mpr hsc)]
        simp only [decide_eq_true_eq] at h2 ⊢
        have key : (sa ^ 2 * nb) * (sb ^ 2 * nc) ≤ (sb ^ 2 * na) * (sc ^ 2 * nb) :=
          mul_le_mul h1 h2 (by positivity) (by positivity)
        have e1 : (sb ^ 2 * nb) * (sa ^ 2 * nc) = (sa ^ 2 * nb) * (sb ^ 2 * nc) := by ring
        have e2 : (sb ^ 2 * nb) * (sc ^ 2 * na) = (sb ^ 2 * na) * (sc ^ 2 * nb) := by ring
        have hsb2 : 0 < sb ^ 2 * nb :=
          mul_pos (sq_pos_of_ne_zero (ne_of_lt hsb)) hnb'
        have key2 : (sb ^ 2 * nb) * (sa ^ 2 * nc) ≤ (sb ^ 2 * nb) * (sc ^ 2 * na) := by
          rw [e1, e2]; exact key
        exact le_of_mul_le_mul_left key2 hsb2

lemma simCmp_iff_real (sa sb na nb : ℚ) (hna : 0 < na) (hnb : 0 < nb) :
    simCmp sa sb na nb = true ↔
      (sb : ℝ) / Real.sqrt (nb : ℝ) ≤ (sa : ℝ) / Real.sqrt (na : ℝ) := by
  have hA : (0:ℝ) < Real.sqrt (na : ℝ) := Real.sqrt_pos.mpr (by exact_mod_cast hna)
  have hB : (0:ℝ) < Real.sqrt (nb : ℝ) := Real.sqrt_pos.mpr (by exact_mod_cast hnb)
  have hA2 : Real.sqrt (na : ℝ) ^ 2 = (na : ℝ) := Real.sq_sqrt (le_of_lt (by exact_mod_cast hna))
  have hB2 : Real.sqrt (nb : ℝ) ^ 2 = (nb : ℝ) := Real.sq_sqrt (le_of_lt (by exact_mod_cast hnb))
  rw [div_le_div_iff₀ hB hA]
  unfold simCmp
  rw [if_neg (ne_of_gt hnb), if_neg (ne_of_gt hna)]
  by_cases hsa : 0 ≤ sa
  · rw [if_pos hsa]
    have hsa' : (0:ℝ) ≤ (sa:ℝ) := by exact_mod_cast hsa
    by_cases hsb : sb ≤ 0
    · rw [if_pos hsb]
      have hsb' : (sb:ℝ) ≤ 0 := by exact_mod_cast hsb
      simp only [true_iff]
      calc (sb:ℝ) * Real.sqrt (na : ℝ) ≤ 0 := mul_nonpos_of_nonpos_of_nonneg hsb' hA.le
        _ ≤ (sa:ℝ) * Real.sqrt (nb : ℝ) := mul_nonneg hsa' hB.le
    · rw [if_neg hsb]
      push_neg at hsb
      have hsb' : (0:ℝ) < (sb:ℝ) := by exact_mod_cast hsb
      simp only [decide_eq_true_eq]
      constructor
      · intro h
        have h' : (sb:ℝ) ^ 2 * (na:ℝ) ≤ (sa:ℝ) ^ 2 * (nb:ℝ) := by exact_mod_cast h
        have e1 : Real.sqrt ((sb:ℝ) ^ 2 * (na:ℝ)) = (sb:ℝ) * Real.sqrt (na:ℝ) := by
          rw [Real.sqrt_mul (sq_nonneg _), Real.sqrt_sq hsb'.le]
        have e2 : Real.sqrt ((sa:ℝ) ^ 2 * (nb:ℝ)) = (sa:ℝ) * Real.sqrt (nb:ℝ) := by
          rw [Real.sqrt_mul (sq_nonneg _), Real.sqrt_sq hsa']
        calc (sb:ℝ) * Real.sqrt (na:ℝ) = Real.sqrt ((sb:ℝ) ^ 2 * (na:ℝ)) := e1.symm
          _ ≤ Real.sqrt ((sa:ℝ) ^ 2 * (nb:ℝ)) := Real.sqrt_le_sqrt h'
          _ = (sa:ℝ) * Real.sqrt (nb:ℝ) := e2
      · intro h
        have hq : (sb:ℝ) ^ 2 * (na:ℝ) ≤ (sa:ℝ) ^ 2 * (nb:ℝ) := by
          have hl : (0:ℝ) ≤ (sb:ℝ) * Real.sqrt (na:ℝ) := (mul_pos hsb' hA).le
          have h2 := mul_self_le_mul_self hl h
          nlinarith [hA2, hB2, h2]
        exact_mod_cast hq
  · rw [if_neg hsa]
    push_neg at hsa
    have hsa' : (sa:ℝ) < 0 := by exact_mod_cast hsa
    by_cases hsb : 0 ≤ sb
    · rw [if_pos hsb]
      have hsb' : (0:ℝ) ≤ (sb:ℝ) := by exact_mod_cast hsb
      simp only [Bool.false_eq_true, false_iff, not_le]
      calc (sa:ℝ) * Real.sqrt (nb : ℝ) < 0 := mul_neg_of_neg_of_pos hsa' hB
        _ ≤ (sb:ℝ) * Real.sqrt (na : ℝ) := mul_nonneg hsb' hA.le
    · rw [if_neg hsb]
      push_neg at hsb
      have hsb' : (sb:ℝ) < 0 := by exact_mod_cast hsb
      simp only [decide_eq_true_eq]
      constructor
      · intro h
        have h' : (sa:ℝ) ^ 2 * (nb:ℝ) ≤ (sb:ℝ) ^ 2 * (na:ℝ) := by exact_mod_cast h
        have e1 : Real.sqrt ((sa:ℝ) ^ 2 * (nb:ℝ)) = (-(sa:ℝ)) * Real.sqrt (nb:ℝ) := by
          rw [Real.sqrt_mul (sq_nonneg _), show ((sa:ℝ)) ^ 2 = (-(sa:ℝ)) ^ 2 by ring,
            Real.sqrt_sq (by linarith)]
        have e2 : Real.sqrt ((sb:ℝ) ^ 2 * (na:ℝ)) = (-(sb:ℝ)) * Real.sqrt (na:ℝ) := by
          rw [Real.sqrt_mul (sq_nonneg _), show ((sb:ℝ)) ^ 2 = (-(sb:ℝ)) ^ 2 by ring,
            Real.sqrt_sq (by linarith)]
        have step : (-(sa:ℝ)) * Real.sqrt (nb:ℝ) ≤ (-(sb:ℝ)) * Real.sqrt (na:ℝ) := by
          calc (-(sa:ℝ)) * Real.sqrt (nb:ℝ) = Real.sqrt ((sa:ℝ) ^ 2 * (nb:ℝ)) := e1.symm
            _ ≤ Real.sqrt ((sb:ℝ) ^ 2 * (na:ℝ)) := Real.sqrt_le_sqrt h'
            _ = (-(sb:ℝ)) * Real.sqrt (na:ℝ) := e2
        linarith
      · intro h
        have step : (-(sa:ℝ)) * Real.sqrt (nb:ℝ) ≤ (-(sb:ℝ)) * Real.sqrt (na:ℝ) := by linarith
        have hl : (0:ℝ) ≤ (-(sa:ℝ)) * Real.sqrt (nb:ℝ) := mul_nonneg (by linarith) hB.le
        have h2 := mul_self_le_mul_self hl step
        have hq : (sa:ℝ) ^ 2 * (nb:ℝ) ≤ (sb:ℝ) ^ 2 * (na:ℝ) := by nlinarith [hA2, hB2, h2]
        exact_mod_cast hq

lemma cosKeyLE_iff (q a b : List ℚ) (hq : 0 < dot q q) (ha : 0 < dot a a) (hb : 0 < dot b b) :
    cosKeyLE q a b = true ↔ cosineDistance q a ≤ cosineDistance q b := by
  have hQ : (0:ℝ) < Real.sqrt ((dot q q : ℚ) : ℝ) := Real.sqrt_pos.mpr (by exact_mod_cast hq)
  unfold cosineDistance cosKeyLE
  rw [simCmp_iff_real _ _ _ _ ha hb, sub_le_sub_iff_left]
  simp only [← div_div]
  exact (div_le_div_iff_of_pos_right hQ).symm

instance instIsTotalEmbLE (q : List ℚ) : IsTotal TransAgentRow (embLE q) :=
  ⟨fun a b => simCmp_total _ _ _ _⟩

instance instIsTransEmbLE (q : List ℚ) : IsTrans TransAgentRow (embLE q) :=
  ⟨fun a b c h1 h2 =>
    simCmp_trans _ _ _ _ _ _ (dot_self_nonneg _) (dot_self_nonneg _) (dot_self_nonneg _) h1 h2⟩

/-! ### Helper lemmas about characters and messages -/

lemma bool_eq_of_iff {a b : Bool} (h : a = true ↔ b = true) : a = b := by
  cases a <;> cases b <;> simp_all

lemma isCJK_iff (c : Char) : isCJK c = true ↔ (0x4e00 ≤ c.toNat ∧ c.toNat ≤ 0x9fff) := by
  simp [isCJK, Char.le_def, UInt32.le_def, BitVec.le_def, Char.toNat, UInt32.toNat]

lemma isAsciiAlpha_iff (c : Char) : isAsciiAlpha c = true ↔
    (c.toNat ≤ 127 ∧ ((65 ≤ c.toNat ∧ c.toNat ≤ 90) ∨ (97 ≤ c.toNat ∧ c.toNat ≤ 122))) := by
  simp [isAsciiAlpha, Char.isAlpha, Char.isUpper, Char.isLower, UInt32.le_def, BitVec.le_def,
    Char.toNat, UInt32.toNat]

lemma isCJK_eq_decide (c : Char) :
    isCJK c = decide (0x4e00 ≤ c.toNat ∧ c.toNat ≤ 0x9fff) :=
  bool_eq_of_iff (by rw [isCJK_iff]; simp only [decide_eq_true_eq])

lemma isAsciiAlpha_eq_decide (c : Char) :
    isAsciiAlpha c =
      decide ((65 ≤ c.toNat ∧ c.toNat ≤ 90) ∨ (97 ≤ c.toNat ∧ c.toNat ≤ 122)) :=
  bool_eq_of_iff (by rw [isAsciiAlpha_iff]; simp only [decide_eq_true_eq]; omega)

lemma find_id (rows : List TransAgentRow) (r : TransAgentRow) (pid : Int)
    (hnd : (rows.map TransAgentRow.id).Nodup) (hr : r ∈ rows) (hid : r.id = pid) :
    rows.find? (fun x => decide (x.id = pid)) = some r := by
  induction rows with
  | nil => cases hr
  | cons h tl ih =>
    simp only [List.map_cons, List.nodup_cons] at hnd
    rcases List.mem_cons.mp hr with rfl | htl
    · rw [List.find?_cons_of_pos _ (by simp [hid])]
    · have hne : ¬ (h.id = pid) := by
        intro he
        refine hnd.1 ?_
        have hm : r.id ∈ tl.map TransAgentRow.id := List.mem_map_of_mem _ htl
        rwa [hid, ← he] at hm
      rw [List.find?_cons_of_neg _ (by simpa using hne)]
      exact ih hnd.2 htl

lemma not_found_ne_generic (pid : Int) (e : String) :
    not_found_msg pid ≠ generic_error_msg e := by
  intro heq
  have h1 : (not_found_msg pid).data.head? = some 'T' := by
    rw [not_found_msg, String.data_append, String.data_append]
    rw [show ("Translation pair with ID ").data =
      'T' :: ("ranslation pair with ID ").data from rfl]
    simp
  have h2 : (generic_error_msg e).data.head? = some 'E' := by
    rw [generic_error_msg, String.data_append]
    rw [show ("Error retrieving translation pair: ").data =
      'E' :: ("rror retrieving translation pair: ").data from rfl]
    simp
  rw [heq, h2] at h1
  simp at h1

/-! ### Concrete fixtures used by the witnesses -/

/-- A sample stored row with every optional field populated. -/
def wrow1 : TransAgentRow :=
  { id := 1, gl_number := some "GL-1", row_number := some "7", version := some "v1",
    effective_date := some "2024-01-01", english_text := "insurance guidelines",
    chinese_text := "保险条款", english_embedding := [1, 0], chinese_embedding := [0, 1],
    created_at := some 1700000000 }

/-- A sample stored row with the optional fields absent. -/
def wrow2 : TransAgentRow :=
  { id := 2, gl_number := none, row_number := none, version := none,
    effective_date := none, english_text := "safety helmets",
    chinese_text := "安全帽", english_embedding := [0, 1], chinese_embedding := [1, 0],
    created_at := none }

/-- A sample store contents. -/
def wrows : List TransAgentRow := [wrow1, wrow2]

/-- An environment in which both the embedding service and the store work. -/
def wenv : Env := { embed := fun _ => Except.ok [1, 0], store := Except.ok wrows }

/-- An environment in which the store connection fails. -/
def envDown : Env :=
  { embed := fun _ => Except.ok [1, 0], store := Except.error "connection refused" }

/-- An environment in which the embedding endpoint is unreachable. -/
def envEmbedDown : Env :=
  { embed := fun _ => Except.error "embedding endpoint unreachable",
    store := Except.ok wrows }

/-- An environment whose store holds a single row. -/
def wenv1 : Env := { embed := fun _ => Except.ok [1, 0], store := Except.ok [wrow1] }

/-! ### The claims -/

/-- C1: for every successful call to `search_similar_pairs` the effective k
is at least 1, the returned pairs are exactly the ranked prefix of the
store (so their number is `min k (number of stored rows)`, at most k and
shorter only when the store holds fewer than k records), and the retrieved
rows are sorted in non-decreasing order of cosine distance between each
record's `english_embedding` and the query vector.  The cosine-distance
hypotheses require the query vector and the stored embeddings to have
positive norm, which is exactly when cosine distance is defined. -/
theorem search_similar_pairs_ranked (env : Env) (u t : String) (k : Int)
    (qv : List ℚ) (rows : List TransAgentRow)
    (hemb : env.embed u = Except.ok qv) (hstore : env.store = Except.ok rows)
    (hq : 0 < dot qv qv)
    (hrows : ∀ r ∈ rows, 0 < dot r.english_embedding r.english_embedding) :
    1 ≤ clamp_top_k k ∧
    (search_similar_pairs env u t k).pairs.length = min (clamp_top_k k).toNat rows.length ∧
    (search_similar_pairs env u t k).pairs =
      (rankByDistance rows qv (clamp_top_k k).toNat).map rowToPair ∧
    (rankByDistance rows qv (clamp_top_k k).toNat).Pairwise
      (fun r1 r2 =>
        cosineDistance qv r1.english_embedding ≤ cosineDistance qv r2.english_embedding) := by
  refine ⟨?_, ?_, ?_, ?_⟩
  · simp only [clamp_top_k]; split_ifs <;> omega
  · simp [search_similar_pairs, hemb, hstore, rankByDistance, List.length_take,
      (List.perm_insertionSort (embLE qv) rows).length_eq]
  · simp [search_similar_pairs, hemb, hstore]
  · have hsorted : (List.insertionSort (embLE qv) rows).Pairwise (embLE qv) :=
      List.sorted_insertionSort (embLE qv) rows
    have htake : (rankByDistance rows qv (clamp_top_k k).toNat).Pairwise (embLE qv) :=
      hsorted.sublist (List.take_sublist _ _)
    refine htake.imp_of_mem ?_
    intro r1 r2 hm1 hm2 hrel
    have hm1' : r1 ∈ rows := by
      have h := List.mem_of_mem_take hm1
      simpa using h
    have hm2' : r2 ∈ rows := by
      have h := List.mem_of_mem_take hm2
      simpa using h
    exact (cosKeyLE_iff qv _ _ hq (hrows r1 hm1') (hrows r2 hm2')).mp hrel

/-- Witness for C1 at a concrete environment with two stored rows. -/
theorem search_similar_pairs_ranked_witness :
    1 ≤ clamp_top_k 3 ∧
    (search_similar_pairs wenv "insurance guidelines" "chinese" 3).pairs.length =
      min (clamp_top_k 3).toNat wrows.length ∧
    (search_similar_pairs wenv "insurance guidelines" "chinese" 3).pairs =
      (rankByDistance wrows [1, 0] (clamp_top_k 3).toNat).map rowToPair ∧
    (rankByDistance wrows [1, 0] (clamp_top_k 3).toNat).Pairwise
      (fun r1 r2 =>
        cosineDistance [1, 0] r1.english_embedding ≤
          cosineDistance [1, 0] r2.english_embedding) :=
  search_similar_pairs_ranked wenv "insurance guidelines" "chinese" 3 [1, 0] wrows
    rfl rfl (by simp [dot]) (by simp [wrows, wrow1, wrow2, dot])

/-- C2: in every response of `search_similar_pairs`, `total_found` equals
the length of `pairs`; and whenever the stored rows carry pairwise distinct
ids (they do: `id` is the primary key), the ids of the returned pairs are
pairwise distinct as well, in the success and in the error variant. -/
theorem search_total_found_and_unique_ids (env : Env) (u t : String) (k : Int)
    (hnodup : ∀ rows, env.store = Except.ok rows → (rows.map TransAgentRow.id).Nodup) :
    (search_similar_pairs env u t k).total_found =
      (search_similar_pairs env u t k).pairs.length ∧
    ((search_similar_pairs env u t k).pairs.map TranslationPair.id).Nodup := by
  rcases hemb : env.embed u with e | qv
  · simp [search_similar_pairs, hemb, errorResponse]
  · rcases hst : env.store with e | rows
    · simp [search_similar_pairs, hemb, hst, errorResponse]
    · refine ⟨by simp [search_similar_pairs, hemb, hst], ?_⟩
      have hn := hnodup rows hst
      simp only [search_similar_pairs, hemb, hst]
      have hmap : ((rankByDistance rows qv (clamp_top_k k).toNat).map rowToPair).map
          TranslationPair.id = (rankByDistance rows qv (clamp_top_k k).toNat).map
          TransAgentRow.id := by
        simp [List.map_map, rowToPair, Function.comp]
      have hperm : ((List.insertionSort (embLE qv) rows).map TransAgentRow.id).Nodup :=
        ((List.perm_insertionSort (embLE qv) rows).map TransAgentRow.id).nodup_iff.mpr hn
      have hsub : ((rankByDistance rows qv (clamp_top_k k).toNat).map
          TransAgentRow.id).Nodup := by
        refine List.Nodup.sublist ?_ hperm
        exact (List.take_sublist _ _).map _
      simpa [hmap] using hsub

/-- Witness for C2 at a concrete environment whose store has distinct ids. -/
theorem search_total_found_and_unique_ids_witness :
    (search_similar_pairs wenv "hello" "english" 5).total_found =
      (search_similar_pairs wenv "hello" "english" 5).pairs.length ∧
    ((search_similar_pairs wenv "hello" "english" 5).pairs.map TranslationPair.id).Nodup :=
  search_total_found_and_unique_ids wenv "hello" "english" 5
    (fun rows h => by injection h with h2; rw [← h2]; decide)

/-- C3: whenever the embedding call fails, or the embedding call succeeds
and the store query fails, `search_similar_pairs` returns exactly the
error-variant response: a human-readable message wrapping the underlying
error, `query_language = "unknown"`, `total_found = 0`, empty `pairs`, and
the caller's `target_language` echoed back; no partial result set. -/
theorem search_failure_response (env : Env) (u t : String) (k : Int) (e : String)
    (hfail : env.embed u = Except.error e ∨
      ∃ qv, env.embed u = Except.ok qv ∧ env.store = Except.error e) :
    search_similar_pairs env u t k =
      { error := some ("Error searching for similar pairs: " ++ e)
        pairs := []
        total_found := 0
        query_language := "unknown"
        target_language := t } := by
  rcases hfail with h | ⟨qv, h1, h2⟩
  · simp [search_similar_pairs, h, errorResponse]
  · simp [search_similar_pairs, h1, h2, errorResponse]

/-- Witness for C3: an unreachable embedding endpoint. -/
theorem search_failure_response_witness :
    search_similar_pairs envEmbedDown "hello" "chinese" 5 =
      { error := some
          ("Error searching for similar pairs: " ++ "embedding endpoint unreachable")
        pairs := []
        total_found := 0
        query_language := "unknown"
        target_language := "chinese" } :=
  search_failure_response envEmbedDown "hello" "chinese" 5
    "embedding endpoint unreachable" (Or.inl rfl)

/-- C4: every response of `search_similar_pairs` is either the success
shape (no error message) or the error shape (an error message together
with empty `pairs`, `total_found = 0` and `query_language = "unknown"`);
a response never carries an error message and success content at once. -/
theorem search_response_discriminated (env : Env) (u t : String) (k : Int) :
    (search_similar_pairs env u t k).error = none ∨
    ((search_similar_pairs env u t k).error ≠ none ∧
     (search_similar_pairs env u t k).pairs = [] ∧
     (search_similar_pairs env u t k).total_found = 0 ∧
     (search_similar_pairs env u t k).query_language = "unknown") := by
  rcases hemb : env.embed u with e | qv
  · right; simp [search_similar_pairs, hemb, errorResponse]
  · rcases hst : env.store with e | rows
    · right; simp [search_similar_pairs, hemb, hst, errorResponse]
    · left; simp [search_similar_pairs, hemb, hst]

/-- C5: the effective k of `search_similar_pairs` equals `top_k` for
`1 ≤ top_k ≤ 20`, equals 1 below the range and 20 above it; and the
clamping is silent: whether the response is the error variant is
independent of `top_k`, so an out-of-range value never surfaces as an
error. -/
theorem clamp_top_k_spec (k : Int) (env : Env) (u t : String) :
    clamp_top_k k = (if k < 1 then 1 else if 20 < k then 20 else k) ∧
    (search_similar_pairs env u t k).error = (search_similar_pairs env u t 5).error := by
  constructor
  · simp only [clamp_top_k]
    split_ifs <;> omega
  · rcases hemb : env.embed u with e | qv
    · simp [search_similar_pairs, hemb]
    · rcases hst : env.store with e | rows
      · simp [search_similar_pairs, hemb, hst]
      · simp [search_similar_pairs, hemb, hst]

/-- C6: `detect_language` is total over strings; it returns `"zh"` exactly
when the count of code points in U+4E00–U+9FFF strictly exceeds the count
of ASCII alphabetic characters and `"en"` otherwise (ties and empty input
included); and it maps "hello world" to `"en"`, "保险条款" to `"zh"` and
the empty string to `"en"`. -/
theorem detect_language_spec :
    (∀ s : String,
      (detect_language s = "zh" ↔
        s.data.countP (fun c => decide (0x4e00 ≤ c.toNat ∧ c.toNat ≤ 0x9fff)) >
          s.data.countP (fun c =>
            decide ((65 ≤ c.toNat ∧ c.toNat ≤ 90) ∨ (97 ≤ c.toNat ∧ c.toNat ≤ 122)))) ∧
      (detect_language s = "en" ↔
        ¬ (s.data.countP (fun c => decide (0x4e00 ≤ c.toNat ∧ c.toNat ≤ 0x9fff)) >
          s.data.countP (fun c =>
            decide ((65 ≤ c.toNat ∧ c.toNat ≤ 90) ∨ (97 ≤ c.toNat ∧ c.toNat ≤ 122)))))) ∧
    detect_language "hello world" = "en" ∧
    detect_language "保险条款" = "zh" ∧
    detect_language "" = "en" := by
  refine ⟨fun s => ?_, by decide, by decide, rfl⟩
  have hcjk : s.data.countP (fun c => decide (0x4e00 ≤ c.toNat ∧ c.toNat ≤ 0x9fff)) =
      (s.data.filter isCJK).length := by
    rw [List.countP_eq_length_filter]
    exact congrArg List.length (List.filter_congr (fun c _ => (isCJK_eq_decide c).symm))
  have halpha : s.data.countP (fun c =>
        decide ((65 ≤ c.toNat ∧ c.toNat ≤ 90) ∨ (97 ≤ c.toNat ∧ c.toNat ≤ 122))) =
      (s.data.filter isAsciiAlpha).length := by
    rw [List.countP_eq_length_filter]
    exact congrArg List.length (List.filter_congr (fun c _ => (isAsciiAlpha_eq_decide c).symm))
  rw [hcjk, halpha]
  rw [show detect_language s =
    (if (s.data.filter isCJK).length > (s.data.filter isAsciiAlpha).length then "zh" else "en")
    from rfl]
  constructor
  · split_ifs with hgt
    · exact iff_of_true rfl hgt
    · exact iff_of_false (by decide) hgt
  · split_ifs with hgt
    · exact iff_of_false (by decide) (not_not_intro hgt)
    · exact iff_of_true rfl hgt

/-- C7 counterexample: the `health_check` of `search_similar_tool.py`
reports `"healthy"` (with no `database` field and no store round-trip)
even in an environment whose store access fails, so the claim that
`health_check` never reports healthy without a successful store
round-trip is false for that variant. -/
theorem health_check_tool_counterexample :
    envDown.store = Except.error "connection refused" ∧
    health_check_tool envDown =
      { status := "healthy", service := "search_similar_tool",
        database := none, error := none } :=
  ⟨rfl, rfl⟩

/-- C7 (amended): the `health_check` of `server.py` performs the trivial
store round-trip and returns `"healthy"` with `database = "connected"`
exactly when it succeeds, `"unhealthy"` with the error otherwise, and
never reports healthy without the round-trip succeeding; the
`search_similar_tool.py` variant instead returns a fixed healthy
dictionary with no database field and no round-trip at all. -/
theorem health_check_spec (env : Env) :
    ((∃ rows, env.store = Except.ok rows) →
      health_check env =
        { status := "healthy", service := "search_similar_tool",
          database := some "connected", error := none }) ∧
    (∀ e, env.store = Except.error e →
      health_check env =
        { status := "unhealthy", service := "search_similar_tool",
          database := none, error := some e }) ∧
    ((health_check env).status = "healthy" → ∃ rows, env.store = Except.ok rows) ∧
    health_check_tool env =
      { status := "healthy", service := "search_similar_tool",
        database := none, error := none } := by
  rcases hst : env.store with e | rows
  · refine ⟨?_, ?_, ?_, rfl⟩
    · rintro ⟨rows, hr⟩; cases hr
    · intro e2 he2
      injection he2 with h
      subst h
      simp [health_check, hst]
    · intro h
      simp [health_check, hst] at h
  · refine ⟨?_, ?_, ?_, rfl⟩
    · intro _; simp [health_check, hst]
    · intro e2 he2; cases he2
    · intro _; exact ⟨rows, rfl⟩

/-- Witness for C7's amended theorem at a working and at a failing store. -/
theorem health_check_spec_witness :
    health_check wenv =
      { status := "healthy", service := "search_similar_tool",
        database := some "connected", error := none } ∧
    health_check envDown =
      { status := "unhealthy", service := "search_similar_tool",
        database := none, error := some "connection refused" } ∧
    health_check_tool envDown =
      { status := "healthy", service := "search_similar_tool",
        database := none, error := none } :=
  ⟨(health_check_spec wenv).1 ⟨wrows, rfl⟩,
   (health_check_spec envDown).2.1 "connection refused" rfl,
   (health_check_spec envDown).2.2.2⟩

/-- C8: `get_translation_pair` never consults the embedding service; with a
working store it returns the dictionary of the unique row carrying the
requested id, and when no row does, its `error` is the not-found message,
which differs from every generic error message, so a caller can tell
"nothing matched" from "something broke". -/
theorem get_translation_pair_spec (env : Env) (pid : Int) :
    (∀ f, get_translation_pair { env with embed := f } pid = get_translation_pair env pid) ∧
    (∀ rows r, env.store = Except.ok rows → (rows.map TransAgentRow.id).Nodup →
       r ∈ rows → r.id = pid → get_translation_pair env pid = foundPairDict r) ∧
    (∀ rows, env.store = Except.ok rows → (∀ r ∈ rows, r.id ≠ pid) →
       (get_translation_pair env pid).error = some (not_found_msg pid)) ∧
    (∀ e, not_found_msg pid ≠ generic_error_msg e) := by
  refine ⟨fun f => rfl, ?_, ?_, not_found_ne_generic pid⟩
  · intro rows r hst hnd hr hid
    simp [get_translation_pair, hst, find_id rows r pid hnd hr hid]
  · intro rows hst hall
    have hf : rows.find? (fun x => decide (x.id = pid)) = none :=
      List.find?_eq_none.mpr (fun x hx => by simpa using hall x hx)
    simp [get_translation_pair, hst, hf]

/-- Witness for C8: a present id, an absent id, and message distinctness. -/
theorem get_translation_pair_spec_witness :
    get_translation_pair { wenv with embed := fun _ => Except.error "x" } 1 =
      get_translation_pair wenv 1 ∧
    get_translation_pair wenv 1 = foundPairDict wrow1 ∧
    (get_translation_pair wenv 99).error = some (not_found_msg 99) ∧
    not_found_msg 1 ≠ generic_error_msg "boom" :=
  ⟨(get_translation_pair_spec wenv 1).1 (fun _ => Except.error "x"),
   (get_translation_pair_spec wenv 1).2.1 wrows wrow1 rfl (by decide)
     (List.mem_cons_self _ _) rfl,
   (get_translation_pair_spec wenv 99).2.2.1 wrows rfl (by decide),
   (get_translation_pair_spec wenv 1).2.2.2 "boom"⟩

/-- C9: the assembly of a stored row sets `context` equal to the row's
`english_text`, sets the metadata `created_at` to the stringified
timestamp when the store holds one and to the absent value when it does
not, copies the remaining fields, and every pair in a search response is
the assembly of some stored row; assembly is a pure function of the row,
so input rows are never modified. -/
theorem rowToPair_assembly (row : TransAgentRow) :
    (rowToPair row).context = row.english_text ∧
    (∀ ts, row.created_at = some ts → (rowToPair row).created_at_meta = some (toString ts)) ∧
    (row.created_at = none → (rowToPair row).created_at_meta = none) ∧
    (rowToPair row).english_text = row.english_text ∧
    (rowToPair row).chinese_text = row.chinese_text ∧
    (rowToPair row).id = row.id ∧
    (∀ env u t k rows p, env.store = Except.ok rows →
      p ∈ (search_similar_pairs env u t k).pairs → ∃ r ∈ rows, p = rowToPair r) := by
  refine ⟨rfl, ?_, ?_, rfl, rfl, rfl, ?_⟩
  · intro ts h; simp [rowToPair, h]
  · intro h; simp [rowToPair, h]
  · intro env u t k rows p hst hp
    rcases hemb : env.embed u with e | qv
    · simp [search_similar_pairs, hemb, errorResponse] at hp
    · simp only [search_similar_pairs, hemb, hst, List.mem_map] at hp
      rcases hp with ⟨r, hr, hrp⟩
      refine ⟨r, ?_, hrp.symm⟩
      have h := List.mem_of_mem_take hr
      simpa using h

/-- Witness for C9 at rows with a present and an absent timestamp; the
search conjunct is applied to the pair returned from a one-row store. -/
theorem rowToPair_assembly_witness :
    (rowToPair wrow1).context = wrow1.english_text ∧
    (rowToPair wrow1).created_at_meta = some (toString 1700000000) ∧
    (rowToPair wrow2).created_at_meta = none ∧
    (∃ r ∈ [wrow1], rowToPair wrow1 = rowToPair r) := by
  refine ⟨(rowToPair_assembly wrow1).1,
    (rowToPair_assembly wrow1).2.1 1700000000 rfl,
    (rowToPair_assembly wrow2).2.2.1 rfl, ?_⟩
  refine (rowToPair_assembly wrow1).2.2.2.2.2.2 wenv1 "hello" "english" 1 [wrow1]
    (rowToPair wrow1) rfl ?_
  exact show rowToPair wrow1 ∈ [rowToPair wrow1] from List.mem_cons_self _ _

/-- C10: the `target_language` argument of `search_similar_pairs` is only
echoed: two calls differing in it alone agree on `pairs`, `total_found`,
`query_language` and `error`, and each echoes its own argument back. -/
theorem search_target_language_noninterference (env : Env) (u : String) (k : Int)
    (t1 t2 : String) :
    (search_similar_pairs env u t1 k).pairs = (search_similar_pairs env u t2 k).pairs ∧
    (search_similar_pairs env u t1 k).total_found =
      (search_similar_pairs env u t2 k).total_found ∧
    (search_similar_pairs env u t1 k).query_language =
      (search_similar_pairs env u t2 k).query_language ∧
    (search_similar_pairs env u t1 k).error = (search_similar_pairs env u t2 k).error ∧
    (search_similar_pairs env u t1 k).target_language = t1 ∧
    (search_similar_pairs env u t2 k).target_language = t2 := by
  rcases hemb : env.embed u with e | qv
  · simp [search_similar_pairs, hemb, errorResponse]
  · rcases hst : env.store with e | rows
    · simp [search_similar_pairs, hemb, hst, errorResponse]
    · simp [search_similar_pairs, hemb, hst]

end SearchSimilar
